import Mathlib

/-!
Verification of the SyncFlix room/session server (src/app.py).

Shallow embedding notes:
* Python `request.sid` connection identifiers, room ids, video hashes and
  filenames are modelled as `String`.
* Timestamps (`time.time()`) and playback positions are only ever stored and
  compared in the source (no arithmetic beyond `now - last_active`), so they
  are modelled as rationals `ℚ`.
* Each socket handler becomes a pure function from the room (and the inputs
  the handler reads, including the current wall-clock time) to the updated
  room plus the list of outbound socket emissions.
* The registry `rooms` dict is modelled as an association list
  `List (String × Room)`; the cleanup sweep and disconnect scan act on it.
-/

namespace SyncFlix

/-- The `'state'` dict of a room: `{'time': float, 'paused': bool}`. -/
structure PlaybackState where
  time : ℚ
  paused : Bool
deriving Repr, DecidableEq

/-- One entry of the `rooms` dict (src/app.py lines 11-20). -/
structure Room where
  host_sid : Option String
  client_sid : Option String
  video_hash : String
  filename : String
  state : PlaybackState
  last_active : ℚ
deriving Repr, DecidableEq

/-- An outbound socketio emission: either targeted at one connection
(`room=<sid>`), or broadcast to a room group (`room=<room_id>`). -/
inductive Msg where
  | syncState (target : String) (st : PlaybackState)
  | error (target : String) (message : String)
  | peerJoined (target : String) (message : String)
  | readyForCall (roomBroadcast : String)
  | relayed (event : String) (target : String) (data : String)
  | chat (roomBroadcast : String) (sender : String) (message : String)
  | roomCreated (target : String) (roomId : String) (filename : String)
deriving Repr, DecidableEq

/-- Whether a message is a targeted emission addressed to connection `c`
(room-group broadcasts are not targeted at a single connection). -/
def targetedTo : Msg → String → Bool
  | .syncState t _, c => t == c
  | .error t _, c => t == c
  | .peerJoined t _, c => t == c
  | .relayed _ t _, c => t == c
  | .roomCreated t _ _, c => t == c
  | .readyForCall _, _ => false
  | .chat _ _ _, _ => false

/-- The routing expression repeated in `handle_control`, `handle_state_update`
and `route_to_peer`: `target = client if request.sid == host else host`
(src/app.py lines 150, 172, 183). `host` may be `None`; comparing a sid
string against `None` is false in Python, hence the `some` comparison. -/
def counterpart (room : Room) (sender : String) : Option String :=
  if room.host_sid = some sender then room.client_sid else room.host_sid

/-- The fresh room record inserted by `handle_create_room`
(src/app.py lines 78-85). -/
def newRoom (creator video_hash filename : String) (now : ℚ) : Room :=
  { host_sid := some creator
    client_sid := none
    video_hash := video_hash
    filename := filename
    state := { time := 0, paused := true }
    last_active := now }

/-- `handle_create_room` (src/app.py lines 66-89). The unguessable room id is
generated externally by `secrets.token_urlsafe` with a collision retry loop;
it enters here as the parameter `room_id`, already fresh. Python falsiness of
a missing/empty field is modelled as the empty string. -/
def handle_create_room (requester video_hash filename room_id : String)
    (now : ℚ) : Option Room × List Msg :=
  if video_hash = "" ∨ filename = "" then
    (none, [Msg.error requester "Missing video metadata"])
  else
    (some (newRoom requester video_hash filename now),
     [Msg.roomCreated requester room_id filename])

/-- `handle_join_room`, the part executed under `room_locks[room_id]` on an
existing room (src/app.py lines 103-123). -/
def handle_join_room (room : Room) (room_id requester video_hash : String)
    (now : ℚ) : Room × List Msg :=
  if room.client_sid.isSome then
    (room, [Msg.error requester "Room is full"])
  else if video_hash ≠ room.video_hash then
    (room, [Msg.error requester
      "Video file mismatch! Make sure you selected the same file as the host."])
  else
    let room2 : Room := { room with client_sid := some requester, last_active := now }
    (room2,
      [Msg.syncState requester room2.state]
        ++ (match room.host_sid with
            | some h => [Msg.peerJoined h "Peer joined"]
            | none => [])
        ++ [Msg.readyForCall room_id])

/-- `handle_control` on an existing room, under the room lock
(src/app.py lines 125-152). `time_val` is the float the handler computed
from the payload. -/
def handle_control (room : Room) (sender action : String) (time_val now : ℚ) :
    Room × List Msg :=
  let st1 : PlaybackState :=
    if action = "play" then { room.state with paused := false }
    else if action = "pause" then { room.state with paused := true }
    else if action = "seek" then { room.state with time := time_val }
    else room.state
  -- keep latest time always
  let st2 : PlaybackState := { st1 with time := time_val }
  let room2 : Room := { room with state := st2, last_active := now }
  (room2,
    match counterpart room sender with
    | some t => [Msg.syncState t st2]
    | none => [])

/-- `handle_state_update` (heartbeat) on an existing room, under the room lock
(src/app.py lines 154-174). -/
def handle_state_update (room : Room) (sender : String) (time_val : ℚ)
    (paused : Bool) (now : ℚ) : Room × List Msg :=
  let st2 : PlaybackState := { time := time_val, paused := paused }
  let room2 : Room := { room with state := st2, last_active := now }
  (room2,
    match counterpart room sender with
    | some t => [Msg.syncState t st2]
    | none => [])

/-- `route_to_peer` on an existing room (src/app.py lines 177-185), as used by
the `offer`/`answer`/`ice_candidate` handlers; `event` is the relayed event
name and `data` the opaque payload. -/
def route_to_peer (room : Room) (sender event data : String) : List Msg :=
  match counterpart room sender with
  | some t => [Msg.relayed event t data]
  | none => []

/-- The per-room body of `handle_disconnect` (src/app.py lines 228-240). -/
def disconnect_room (meta : Room) (sid : String) (now : ℚ) : Room :=
  let host2 := if meta.host_sid = some sid then none else meta.host_sid
  let client2 := if meta.client_sid = some sid then none else meta.client_sid
  let changed := meta.host_sid = some sid ∨ meta.client_sid = some sid
  { meta with
    host_sid := host2
    client_sid := client2
    last_active := if changed then now else meta.last_active }

/-- `handle_disconnect` (src/app.py lines 224-240): scans every room and
clears slots held by `sid`; it never deletes a registry entry. -/
def handle_disconnect (reg : List (String × Room)) (sid : String) (now : ℚ) :
    List (String × Room) :=
  reg.map (fun p => (p.1, disconnect_room p.2 sid now))

/-- `ROOM_TTL_SECONDS = 60 * 60` (src/app.py line 23). -/
def ROOM_TTL_SECONDS : ℚ := 60 * 60

/-- The per-room deletion test of one `cleanup_worker` pass
(src/app.py lines 33-40). -/
def sweep_delete (now : ℚ) (meta : Room) : Bool :=
  if meta.host_sid = none ∧ meta.client_sid = none then true
  else decide (now - meta.last_active > ROOM_TTL_SECONDS)

/-- One pass of `cleanup_worker` over the registry (src/app.py lines 30-47):
every room marked by `sweep_delete` is removed, all others are kept. -/
def sweep (reg : List (String × Room)) (now : ℚ) : List (String × Room) :=
  reg.filter (fun p => ! sweep_delete now p.2)

/-- A Control or Heartbeat event as applied to one room's state, paired at
application time with the wall clock `now` read inside the handler. -/
inductive SyncEvent where
  | control (sender action : String) (time_val : ℚ)
  | heartbeat (sender : String) (time_val : ℚ) (paused : Bool)
deriving Repr, DecidableEq

/-- The room after one Control/Heartbeat handler runs (emissions dropped). -/
def applyEvent (room : Room) (e : SyncEvent) (now : ℚ) : Room :=
  match e with
  | .control s a tv => (handle_control room s a tv now).1
  | .heartbeat s tv p => (handle_state_update room s tv p now).1

/-- A whole sequence of Control/Heartbeat events, in the total order the
per-room lock imposes. -/
def applyEvents (room : Room) (es : List (SyncEvent × ℚ)) : Room :=
  es.foldl (fun r e => applyEvent r e.1 e.2) room

/-- The reported playback position carried by an event. -/
def eventTime : SyncEvent → ℚ
  | .control _ _ tv => tv
  | .heartbeat _ tv _ => tv

/-- The paused flag an event writes, if it writes one: `play` writes `false`,
`pause` writes `true`, a heartbeat writes its payload flag, and any other
control action leaves `paused` untouched. -/
def writesPaused : SyncEvent → Option Bool
  | .control _ a _ =>
      if a = "play" then some false
      else if a = "pause" then some true
      else none
  | .heartbeat _ _ p => some p

/-! ### Concrete reachable rooms used by witnesses and counterexamples -/

/-- Reachable room with host `"A"` and client `"B"`: created by `"A"`, then
joined by `"B"` with the matching hash. -/
def roomAB : Room :=
  (handle_join_room (newRoom "A" "abc" "movie.mp4" 0) "R" "B" "abc" 1).1

/-- Reachable room in which the host joined its own room, so both slots hold
the same connection `"A"`. -/
def selfRoom : Room :=
  (handle_join_room (newRoom "A" "abc" "movie.mp4" 0) "R" "A" "abc" 1).1

/-- Freshly created room: host `"A"`, client slot empty. -/
def roomHostOnly : Room := newRoom "A" "abc" "movie.mp4" 0

/-- Room after both peers disconnected from `roomAB`; both slots empty. -/
def roomEmpty : Room := disconnect_room (disconnect_room roomAB "A" 2) "B" 3

/-! ### Helper lemmas -/

/-- Unless the sender occupies both slots at once, the computed counterpart
is never the sender itself. -/
theorem counterpart_ne (room : Room) (s t : String)
    (h : ¬(room.host_sid = some s ∧ room.client_sid = some s))
    (ht : counterpart room s = some t) : t ≠ s := by
  intro he
  subst he
  unfold counterpart at ht
  by_cases hh : room.host_sid = some t
  · rw [if_pos hh] at ht
    exact h ⟨hh, ht⟩
  · rw [if_neg hh] at ht
    exact hh ht

/-! ### Claims -/

/-- Claim C1, counterexample: the no-echo property fails in the reachable
state where one connection occupies both slots. `"A"` creates a room and then
joins it itself (`selfRoom`); a subsequent `play` control from `"A"` emits the
targeted `sync_state` back to `"A"`, the sender. -/
theorem C1_counterexample :
    selfRoom.host_sid = some "A" ∧ selfRoom.client_sid = some "A" ∧
    (handle_control selfRoom "A" "play" 5 2).2 = [Msg.syncState "A" ⟨5, false⟩] ∧
    targetedTo (Msg.syncState "A" ⟨5, false⟩) "A" = true := by
  decide

/-- Claim C1, amended: for every Control, Heartbeat, or signaling event on an
existing room, the resulting targeted `sync_state` or relayed message is never
delivered to the sender's own connection, provided the sender does not occupy
both the host and the client slot simultaneously. -/
theorem C1_no_echo (room : Room) (s action ev data : String) (tv : ℚ) (p : Bool)
    (now : ℚ) (h : ¬(room.host_sid = some s ∧ room.client_sid = some s)) :
    (∀ m ∈ (handle_control room s action tv now).2, targetedTo m s = false) ∧
    (∀ m ∈ (handle_state_update room s tv p now).2, targetedTo m s = false) ∧
    (∀ m ∈ route_to_peer room s ev data, targetedTo m s = false) := by
  have key : ∀ t, counterpart room s = some t → (t == s) = false := fun t ht =>
    beq_eq_false_iff_ne.mpr (counterpart_ne room s t h ht)
  refine ⟨?_, ?_, ?_⟩
  · intro m hm
    cases hc : counterpart room s with
    | none => simp [handle_control, hc] at hm
    | some t =>
      simp [handle_control, hc] at hm
      subst hm
      simpa [targetedTo] using key t hc
  · intro m hm
    cases hc : counterpart room s with
    | none => simp [handle_state_update, hc] at hm
    | some t =>
      simp [handle_state_update, hc] at hm
      subst hm
      simpa [targetedTo] using key t hc
  · intro m hm
    cases hc : counterpart room s with
    | none => simp [route_to_peer, hc] at hm
    | some t =>
      simp [route_to_peer, hc] at hm
      subst hm
      simpa [targetedTo] using key t hc

/-- Witness for C1's amended theorem: in `roomAB` (host `"A"`, client `"B"`),
a `play` control from `"A"` produces a message not targeted at `"A"`. -/
theorem C1_no_echo_witness :
    targetedTo (Msg.syncState "B" ⟨5, false⟩) "A" = false :=
  (C1_no_echo roomAB "A" "play" "offer" "sdp" 5 true 2 (by decide)).1
    (Msg.syncState "B" ⟨5, false⟩) (by decide)

/-- Claim C2: the counterpart is the client slot if the sender equals the
stored host and the host slot otherwise (so an unbound sender is routed to the
host); each of the three routing handlers emits exactly one message to that
counterpart, and when the counterpart slot is empty nothing is emitted while
the state update is still applied. -/
theorem C2_counterpart_routing (room : Room) (s a ev data hh : String)
    (tv now : ℚ) (p : Bool) :
    (room.host_sid = some s → counterpart room s = room.client_sid) ∧
    (room.host_sid ≠ some s → counterpart room s = room.host_sid) ∧
    ((handle_control room s a tv now).2 =
      match counterpart room s with
      | some t => [Msg.syncState t (handle_control room s a tv now).1.state]
      | none => []) ∧
    ((handle_state_update room s tv p now).2 =
      match counterpart room s with
      | some t => [Msg.syncState t (handle_state_update room s tv p now).1.state]
      | none => []) ∧
    (route_to_peer room s ev data =
      match counterpart room s with
      | some t => [Msg.relayed ev t data]
      | none => []) ∧
    (room.host_sid ≠ some s → room.client_sid ≠ some s → room.host_sid = some hh →
      (handle_control room s a tv now).2 =
        [Msg.syncState hh (handle_control room s a tv now).1.state]) ∧
    (counterpart room s = none →
      (handle_control room s a tv now).2 = [] ∧
      (handle_state_update room s tv p now).2 = [] ∧
      route_to_peer room s ev data = [] ∧
      (handle_control room s a tv now).1.state.time = tv ∧
      (handle_control room s a tv now).1.last_active = now ∧
      (handle_state_update room s tv p now).1.state = ⟨tv, p⟩) := by
  refine ⟨?_, ?_, ?_, ?_, ?_, ?_, ?_⟩
  · intro h
    unfold counterpart
    rw [if_pos h]
  · intro h
    unfold counterpart
    rw [if_neg h]
  · cases hc : counterpart room s <;> simp [handle_control, hc]
  · cases hc : counterpart room s <;> simp [handle_state_update, hc]
  · cases hc : counterpart room s <;> simp [route_to_peer, hc]
  · intro h1 _ h3
    have hc : counterpart room s = some hh := by
      unfold counterpart
      rw [if_neg h1]
      exact h3
    simp [handle_control, hc]
  · intro hc
    exact ⟨by simp [handle_control, hc], by simp [handle_state_update, hc],
      by simp [route_to_peer, hc], rfl, rfl, rfl⟩

/-- Witness for C2: in the freshly created `roomHostOnly`, a control from the
unbound connection `"C"` is delivered to the host `"A"`; a control from the
host `"A"` finds an empty counterpart slot, so nothing is emitted although the
state update is applied. -/
theorem C2_witness :
    counterpart roomHostOnly "C" = some "A" ∧
    (handle_control roomHostOnly "A" "seek" 7 3).2 = [] ∧
    (handle_control roomHostOnly "A" "seek" 7 3).1.state.time = 7 :=
  ⟨(C2_counterpart_routing roomHostOnly "C" "seek" "offer" "d" "A" 7 3 true).2.1
      (by decide),
   ((C2_counterpart_routing roomHostOnly "A" "seek" "offer" "d" "A" 7 3 true).2.2.2.2.2.2
      (by decide)).1,
   ((C2_counterpart_routing roomHostOnly "A" "seek" "offer" "d" "A" 7 3 true).2.2.2.2.2.2
      (by decide)).2.2.2.1⟩

/-- Claim C3: a join against a room whose client slot is occupied yields only
a `Room is full` error to the requester and leaves the room entirely
unchanged. -/
theorem C3_room_full (room : Room) (rid requester vh : String) (now : ℚ)
    (h : room.client_sid.isSome) :
    handle_join_room room rid requester vh now =
      (room, [Msg.error requester "Room is full"]) := by
  simp [handle_join_room, h]

/-- Witness for C3: `roomAB` has its client slot occupied, so a join by `"C"`
is rejected and the room is unchanged. -/
theorem C3_witness :
    handle_join_room roomAB "R" "C" "abc" 9 =
      (roomAB, [Msg.error "C" "Room is full"]) :=
  C3_room_full roomAB "R" "C" "abc" 9 (by decide)

/-- Claim C4: a join against a room with an empty client slot but a
mismatched fingerprint yields only the mismatch error to the requester, never
binds the client slot, and leaves the room unchanged. -/
theorem C4_content_mismatch (room : Room) (rid requester vh : String) (now : ℚ)
    (h1 : room.client_sid = none) (h2 : vh ≠ room.video_hash) :
    handle_join_room room rid requester vh now =
      (room, [Msg.error requester
        "Video file mismatch! Make sure you selected the same file as the host."]) := by
  simp [handle_join_room, h1, h2]

/-- Witness for C4: joining `roomHostOnly` (hash `"abc"`) with hash `"xyz"`
is rejected with the mismatch error and the room is unchanged. -/
theorem C4_witness :
    handle_join_room roomHostOnly "R" "B" "xyz" 9 =
      (roomHostOnly, [Msg.error "B"
        "Video file mismatch! Make sure you selected the same file as the host."]) :=
  C4_content_mismatch roomHostOnly "R" "B" "xyz" 9 (by decide) (by decide)

/-- Claim C5: a join with the matching fingerprint against a room with an
empty client slot binds the client slot to the requester, refreshes
`last_active`, and emits exactly: the room's current playback state to the
joiner (`sync_state`), `peer_joined` to the host connection when one is
bound, and a `ready_for_call` broadcast to the whole room; joining a freshly
created room delivers `sync_state {0, paused := true}` to the joiner. -/
theorem C5_join_success (room : Room) (rid requester hostc hvh hfn : String)
    (now t0 : ℚ) (h1 : room.client_sid = none) :
    (handle_join_room room rid requester room.video_hash now).1 =
      { room with client_sid := some requester, last_active := now } ∧
    (handle_join_room room rid requester room.video_hash now).2 =
      [Msg.syncState requester room.state]
        ++ (match room.host_sid with
            | some h => [Msg.peerJoined h "Peer joined"]
            | none => [])
        ++ [Msg.readyForCall rid] ∧
    (handle_join_room (newRoom hostc hvh hfn t0) rid requester hvh now).2 =
      [Msg.syncState requester ⟨0, true⟩, Msg.peerJoined hostc "Peer joined",
       Msg.readyForCall rid] := by
  refine ⟨?_, ?_, ?_⟩
  · simp [handle_join_room, h1]
  · simp [handle_join_room, h1]
  · simp [handle_join_room, newRoom]

/-- Witness for C5: `"B"` joins `roomHostOnly` with the matching hash; the
client slot binds to `"B"` and `last_active` becomes `4`. -/
theorem C5_witness :
    (handle_join_room roomHostOnly "R" "B" roomHostOnly.video_hash 4).1 =
      { roomHostOnly with client_sid := some "B", last_active := 4 } :=
  (C5_join_success roomHostOnly "R" "B" "A" "abc" "movie.mp4" 4 0 rfl).1

/-- Claim C6: `play` sets `paused := false`, `pause` sets `paused := true`,
every control action overwrites `time` with the reported value and refreshes
`last_active`; a heartbeat overwrites both fields; and after any sequence of
Control/Heartbeat events, the final playback state carries exactly the fields
written by the last event (its reported time always; its paused flag when it
writes one, the previous flag otherwise). -/
theorem C6_last_writer_wins (room : Room) (es : List (SyncEvent × ℚ))
    (e : SyncEvent) (s a : String) (tv now : ℚ) (p : Bool) :
    ((applyEvents room (es ++ [(e, now)])).state.time = eventTime e) ∧
    (∀ b, writesPaused e = some b →
      (applyEvents room (es ++ [(e, now)])).state.paused = b) ∧
    (writesPaused e = none →
      (applyEvents room (es ++ [(e, now)])).state.paused =
        (applyEvents room es).state.paused) ∧
    ((handle_control room s "play" tv now).1.state.paused = false) ∧
    ((handle_control room s "pause" tv now).1.state.paused = true) ∧
    ((handle_control room s a tv now).1.state.time = tv) ∧
    ((handle_control room s a tv now).1.last_active = now) ∧
    ((handle_state_update room s tv p now).1.state = ⟨tv, p⟩) ∧
    ((handle_state_update room s tv p now).1.last_active = now) := by
  have happ : applyEvents room (es ++ [(e, now)]) =
      applyEvent (applyEvents room es) e now := by
    simp [applyEvents, List.foldl_append]
  have htime : ∀ (r : Room), (applyEvent r e now).state.time = eventTime e := by
    intro r
    cases e <;> rfl
  have hpaused : ∀ (r : Room), (applyEvent r e now).state.paused =
      match writesPaused e with
      | some b => b
      | none => r.state.paused := by
    intro r
    cases e with
    | control s0 a0 tv0 =>
      by_cases h1 : a0 = "play"
      · simp [applyEvent, handle_control, writesPaused, h1]
      · by_cases h2 : a0 = "pause"
        · simp [applyEvent, handle_control, writesPaused, h1, h2]
        · by_cases h3 : a0 = "seek" <;>
            simp [applyEvent, handle_control, writesPaused, h1, h2, h3]
    | heartbeat s0 tv0 p0 => rfl
  refine ⟨?_, ?_, ?_, ?_, ?_, rfl, rfl, rfl, rfl⟩
  · rw [happ, htime]
  · intro b hb
    rw [happ, hpaused, hb]
  · intro hb
    rw [happ, hpaused, hb]
  · simp [handle_control]
  · simp [handle_control]

/-- Witness for C6: after `play` then a heartbeat `{time := 9,
paused := false}` on `roomAB`, the final paused flag is the heartbeat's. -/
theorem C6_witness :
    (applyEvents roomAB ([(SyncEvent.control "A" "play" 1, 1)]
      ++ [(SyncEvent.heartbeat "A" 9 false, 2)])).state.paused = false :=
  (C6_last_writer_wins roomAB [(SyncEvent.control "A" "play" 1, 1)]
    (SyncEvent.heartbeat "A" 9 false) "A" "seek" 1 2 true).2.1 false rfl

/-- Claim C7: one cleanup pass keeps a room if and only if it was present and
not marked for deletion; a room is marked exactly when both slots are empty
or its `last_active` is older than the one-hour TTL relative to `now` —
occupancy does not shield a stale room. -/
theorem C7_sweep (reg : List (String × Room)) (now : ℚ) (rid : String)
    (room : Room) :
    ((rid, room) ∈ sweep reg now ↔
      (rid, room) ∈ reg ∧ sweep_delete now room = false) ∧
    (room.host_sid = none → room.client_sid = none →
      sweep_delete now room = true) ∧
    (now - room.last_active > ROOM_TTL_SECONDS → sweep_delete now room = true) ∧
    (sweep_delete now room = true →
      (room.host_sid = none ∧ room.client_sid = none) ∨
        now - room.last_active > ROOM_TTL_SECONDS) := by
  refine ⟨?_, ?_, ?_, ?_⟩
  · simp [sweep, List.mem_filter, Bool.not_eq_true']
  · intro h1 h2
    simp [sweep_delete, h1, h2]
  · intro h
    by_cases hb : room.host_sid = none ∧ room.client_sid = none <;>
      simp [sweep_delete, hb, h]
  · intro h
    by_cases hb : room.host_sid = none ∧ room.client_sid = none
    · exact Or.inl hb
    · right
      rw [sweep_delete, if_neg hb] at h
      exact of_decide_eq_true h

/-- Witness for C7: `roomAB` (still occupied, `last_active = 1`) is marked
for deletion at `now = 5000` since `4999 > 3600`; `roomEmpty` (both slots
empty) is marked regardless of age. -/
theorem C7_witness :
    sweep_delete 5000 roomAB = true ∧ sweep_delete 4 roomEmpty = true :=
  ⟨(C7_sweep [] 5000 "R" roomAB).2.2.1
      (by norm_num [roomAB, handle_join_room, newRoom, ROOM_TTL_SECONDS]),
   (C7_sweep [] 4 "E" roomEmpty).2.1 (by decide) (by decide)⟩

/-- Claim C8: a disconnect never removes a registry entry (the key list is
preserved); per room, every slot holding the disconnected id is cleared, a
room so changed gets `last_active := now`, slots not holding the id are kept,
and a room in which the id occupies no slot is left completely unchanged. -/
theorem C8_disconnect (reg : List (String × Room)) (room : Room) (sid : String)
    (now : ℚ) :
    ((handle_disconnect reg sid now).map Prod.fst = reg.map Prod.fst) ∧
    ((disconnect_room room sid now).host_sid ≠ some sid) ∧
    ((disconnect_room room sid now).client_sid ≠ some sid) ∧
    (room.host_sid = some sid ∨ room.client_sid = some sid →
      (disconnect_room room sid now).last_active = now) ∧
    (room.host_sid ≠ some sid →
      (disconnect_room room sid now).host_sid = room.host_sid) ∧
    (room.client_sid ≠ some sid →
      (disconnect_room room sid now).client_sid = room.client_sid) ∧
    (room.host_sid ≠ some sid ∧ room.client_sid ≠ some sid →
      disconnect_room room sid now = room) := by
  refine ⟨?_, ?_, ?_, ?_, ?_, ?_, ?_⟩
  · simp [handle_disconnect]
  · by_cases h : room.host_sid = some sid <;> simp [disconnect_room, h]
  · by_cases h : room.client_sid = some sid <;> simp [disconnect_room, h]
  · intro h
    simp only [disconnect_room]
    rw [if_pos h]
  · intro h
    simp [disconnect_room, h]
  · intro h
    simp [disconnect_room, h]
  · intro h
    obtain ⟨h1, h2⟩ := h
    cases room
    simp_all [disconnect_room]

/-- Witness for C8: disconnecting `"A"` from `roomAB` clears the host slot
and stamps `last_active := 7`; disconnecting the stranger `"Z"` leaves
`roomAB` untouched. -/
theorem C8_witness :
    (disconnect_room roomAB "A" 7).host_sid ≠ some "A" ∧
    (disconnect_room roomAB "A" 7).last_active = 7 ∧
    disconnect_room roomAB "Z" 7 = roomAB :=
  ⟨(C8_disconnect [] roomAB "A" 7).2.1,
   (C8_disconnect [] roomAB "A" 7).2.2.2.1 (Or.inl (by decide)),
   (C8_disconnect [] roomAB "Z" 7).2.2.2.2.2.2 ⟨by decide, by decide⟩⟩

/-- Claim C9: `handle_join_room` never compares the requester against the
stored host, so the host of a freshly created room can join its own room with
the matching hash: the join succeeds and both slots end up holding the host's
connection id, making that state reachable. -/
theorem C9_host_self_join (hvh hfn rid hostc : String) (t0 now : ℚ) :
    (handle_join_room (newRoom hostc hvh hfn t0) rid hostc hvh now).1.host_sid
      = some hostc ∧
    (handle_join_room (newRoom hostc hvh hfn t0) rid hostc hvh now).1.client_sid
      = some hostc := by
  simp [handle_join_room, newRoom]

/-- Claim C10: a control whose action is none of `play`/`pause`/`seek` is not
rejected: it behaves exactly like a `seek` — it overwrites `time` with the
reported value, leaves `paused` unchanged, refreshes `last_active`, and sends
the updated state to the counterpart. -/
theorem C10_unknown_action (room : Room) (s action : String) (tv now : ℚ)
    (h1 : action ≠ "play") (h2 : action ≠ "pause") (h3 : action ≠ "seek") :
    handle_control room s action tv now = handle_control room s "seek" tv now ∧
    (handle_control room s action tv now).1.state.time = tv ∧
    (handle_control room s action tv now).1.state.paused = room.state.paused ∧
    (handle_control room s action tv now).1.last_active = now := by
  refine ⟨?_, rfl, ?_, rfl⟩
  · simp [handle_control, h1, h2, h3]
  · simp [handle_control, h1, h2, h3]

/-- Witness for C10: the unknown action `"jump"` on `roomAB` behaves exactly
like a `seek`. -/
theorem C10_witness :
    handle_control roomAB "A" "jump" 3 4 = handle_control roomAB "A" "seek" 3 4 :=
  (C10_unknown_action roomAB "A" "jump" 3 4 (by decide) (by decide) (by decide)).1

end SyncFlix
